import Mathlib

/-!
Verification of the `autobl` steering guide (`src/autobl/steering/guide.py`):
the stopping criterion, the acquisition weighting function, the feature
projection function, and the coordinate-transform helpers, shallowly embedded
over the real numbers.
-/

namespace Autobl

/-- Modelled from the spec: `autobl.util.sigmoid` (the module is not under
`src/`); the spec describes "a rising sigmoid" / "two opposite-direction
sigmoids", i.e. the logistic curve with rate `r` centered at `d`. -/
noncomputable def sigmoid (x r d : ℝ) : ℝ :=
  1 / (1 + Real.exp (-(r * (x - d))))

/-- Modelled from the spec: `autobl.util.gaussian` (the module is not under
`src/`); the spec describes "a Gaussian bump" with amplitude `a`, center `mu`,
width `sigma` and constant offset `c`. -/
noncomputable def gaussian (x a mu sigma c : ℝ) : ℝ :=
  a * Real.exp (-((x - mu) ^ 2 / (2 * sigma ^ 2))) + c

/-- Parameters captured by the closure `weight_func` built in
`XANESExperimentGuide.build_acqf_weight_function` (guide.py lines 394-404):
the normalized peak location/width found by peak finding, and the configured
post-edge gain/offset/width and floor value. -/
structure AcqfWeightParams where
  peak_loc_normalized : ℝ
  peak_width_normalized : ℝ
  post_edge_gain : ℝ
  post_edge_offset : ℝ
  post_edge_width : ℝ
  floor_value : ℝ

/-- Embeds the closure `weight_func` of
`XANESExperimentGuide.build_acqf_weight_function` (guide.py lines 397-405):
`m = sigmoid(x, r=20/width, d=loc - 1.6*width)`;
`m = m + gaussian(x, a=gain, mu=loc + offset*width, sigma=width*post_edge_width, c=0)`;
`m = m * (1 - floor_value) + floor_value`. -/
noncomputable def acqf_weight_func (p : AcqfWeightParams) (x : ℝ) : ℝ :=
  let m1 := sigmoid x (20 / p.peak_width_normalized)
    (p.peak_loc_normalized - 1.6 * p.peak_width_normalized)
  let m2 := m1 + gaussian x p.post_edge_gain
    (p.peak_loc_normalized + p.post_edge_offset * p.peak_width_normalized)
    (p.peak_width_normalized * p.post_edge_width) 0
  m2 * (1 - p.floor_value) + p.floor_value

lemma sigmoid_pos (x r d : ℝ) : 0 < sigmoid x r d := by
  unfold sigmoid
  have h := Real.exp_pos (-(r * (x - d)))
  positivity

lemma sigmoid_lt_one (x r d : ℝ) : sigmoid x r d < 1 := by
  unfold sigmoid
  have h := Real.exp_pos (-(r * (x - d)))
  rw [div_lt_one (by linarith)]
  linarith

lemma gaussian_nonneg (x a mu sigma : ℝ) (ha : 0 ≤ a) :
    0 ≤ gaussian x a mu sigma 0 := by
  unfold gaussian
  have h := Real.exp_pos (-((x - mu) ^ 2 / (2 * sigma ^ 2)))
  nlinarith

lemma gaussian_le_amp (x a mu sigma : ℝ) (ha : 0 ≤ a) :
    gaussian x a mu sigma 0 ≤ a := by
  unfold gaussian
  have hq : 0 ≤ (x - mu) ^ 2 / (2 * sigma ^ 2) := by positivity
  have h := Real.exp_le_one_iff.mpr (by linarith : -((x - mu) ^ 2 / (2 * sigma ^ 2)) ≤ 0)
  nlinarith

/-- Claim C1 (counterexample): with the post-edge gain set to 3 (the value the
repository's YBCO script configures), the weight function exceeds 1 at the
center of the post-edge Gaussian bump, so its value does not lie in
`[floor_value, 1]`. -/
theorem C1_counterexample :
    1 < acqf_weight_func
      ⟨1/2, 1/10, 3, 1, 1, 1/100⟩ (3/5) := by
  unfold acqf_weight_func gaussian
  have hs := sigmoid_pos (3/5) 200 (17/50)
  have hc : ((3:ℝ)/5 - (1/2 + 1 * (1/10))) = 0 := by norm_num
  rw [hc]
  norm_num
  nlinarith

/-- Claim C1 (amended): for every guide on which the acquisition weighting
function has been built with nonnegative post-edge gain and floor value in
`[0, 1]`, and for every `x` in `[0, 1]`, the value `acqf_weight_func(x)` lies
in `[floor_value, 1 + post_edge_gain * (1 - floor_value)]` (the claimed upper
bound `1` only holds when the post-edge gain is zero). -/
theorem C1_acqf_weight_func_bounds (p : AcqfWeightParams) (x : ℝ)
    (hg : 0 ≤ p.post_edge_gain) (hf0 : 0 ≤ p.floor_value)
    (hf1 : p.floor_value ≤ 1) (hx0 : 0 ≤ x) (hx1 : x ≤ 1) :
    p.floor_value ≤ acqf_weight_func p x ∧
      acqf_weight_func p x ≤ 1 + p.post_edge_gain * (1 - p.floor_value) := by
  unfold acqf_weight_func
  have hs0 := sigmoid_pos x (20 / p.peak_width_normalized)
    (p.peak_loc_normalized - 1.6 * p.peak_width_normalized)
  have hs1 := sigmoid_lt_one x (20 / p.peak_width_normalized)
    (p.peak_loc_normalized - 1.6 * p.peak_width_normalized)
  have hg0 := gaussian_nonneg x p.post_edge_gain
    (p.peak_loc_normalized + p.post_edge_offset * p.peak_width_normalized)
    (p.peak_width_normalized * p.post_edge_width) hg
  have hg1 := gaussian_le_amp x p.post_edge_gain
    (p.peak_loc_normalized + p.post_edge_offset * p.peak_width_normalized)
    (p.peak_width_normalized * p.post_edge_width) hg
  constructor
  · nlinarith
  · nlinarith

/-- Witness for C1: the amended bounds instantiated at the concrete
parameters of the counterexample and `x = 0`. -/
theorem C1_witness :
    (1:ℝ)/100 ≤ acqf_weight_func ⟨1/2, 1/10, 3, 1, 1, 1/100⟩ 0 ∧
      acqf_weight_func ⟨1/2, 1/10, 3, 1, 1, 1/100⟩ 0 ≤ 1 + 3 * (1 - 1/100) := by
  have h := C1_acqf_weight_func_bounds ⟨1/2, 1/10, 3, 1, 1, 1/100⟩ 0
    (by norm_num) (by norm_num) (by norm_num) (by norm_num) (by norm_num)
  exact h

/-- Embeds `StoppingCriterionConfig` (autobl.steering.configs): method name,
warm-up count `n_updates_to_begin`, check interval `n_check_interval`, and the
`threshold` entry of `params`. -/
structure StoppingCriterionConfig where
  method : String
  n_updates_to_begin : ℕ
  n_check_interval : ℕ
  threshold : ℝ

/-- The guide state read by `StoppingCriterion.check` (guide.py lines 27-51):
the update-call counter, the number of accumulated data points
(`data_x.shape[0]`), the posterior standard deviation exposed by
`get_posterior_mean_and_std` (the GP library internals are external), and the
optional acquisition weighting function. -/
structure GuideState where
  n_update_calls : ℕ
  n_data : ℕ
  posterior_std : ℝ → ℝ
  acqf_weight_fn : Option (ℝ → ℝ)

/-- The `i`-th point of `torch.linspace(0, 1, m)`. -/
noncomputable def gridPt (m i : ℕ) : ℝ := (i : ℝ) / ((m : ℝ) - 1)

/-- Embeds `torch.linspace(0, 1, m)`. -/
noncomputable def torch_linspace (m : ℕ) : List ℝ :=
  (List.range m).map (gridPt m)

/-- Embeds `torch.clip(v, 0, 1)`. -/
noncomputable def clip01 (v : ℝ) : ℝ := min (max v 0) 1

/-- Embeds `.max()` of a (nonempty) torch tensor given as a list. -/
noncomputable def tensorMax : List ℝ → ℝ
  | [] => 0
  | a :: t => t.foldl max a

/-- Embeds the weighted posterior standard deviation maximized in
`StoppingCriterion.check_max_uncertainty` (guide.py lines 39-46): posterior
std over `torch.linspace(0, 1, n_data * 5)`, multiplied by the weighting
function clipped to `[0, 1]` when one is set, by `1.0` otherwise. -/
noncomputable def max_weighted_sigma (g : GuideState) : ℝ :=
  tensorMax ((torch_linspace (g.n_data * 5)).map (fun x =>
    g.posterior_std x * (match g.acqf_weight_fn with
      | some wf => clip01 (wf x)
      | none => 1)))

/-- Embeds the comparison at the end of
`StoppingCriterion.check_max_uncertainty` (guide.py lines 46-51). -/
noncomputable def check_max_uncertainty (g : GuideState) (t : ℝ) : Bool :=
  if max_weighted_sigma g < t then true else false

/-- Embeds `StoppingCriterion.check` (guide.py lines 27-35). The Python
method has no `return` after the `method == 'max_uncertainty'` dispatch, so it
implicitly returns `None` for unknown methods; the result type is therefore
`Option Bool`, with `none` standing for Python's `None`. -/
noncomputable def StoppingCriterion.check (cfg : Option StoppingCriterionConfig)
    (g : GuideState) : Option Bool :=
  match cfg with
  | none => some false
  | some c =>
    if g.n_update_calls < c.n_updates_to_begin then some false
    else if (g.n_update_calls - c.n_updates_to_begin) % c.n_check_interval ≠ 0 then
      some false
    else if c.method = "max_uncertainty" then
      some (check_max_uncertainty g c.threshold)
    else none

/-- Claim C2: with method `max_uncertainty`, `check()` returns false before the
warm-up count and off the check interval; when both gates pass it returns true
iff the maximum weighted posterior std over the dense grid is strictly below
the threshold. -/
theorem C2_stopping_criterion_gates_and_threshold
    (c : StoppingCriterionConfig) (g : GuideState)
    (hm : c.method = "max_uncertainty") :
    (g.n_update_calls < c.n_updates_to_begin →
      StoppingCriterion.check (some c) g = some false) ∧
    (c.n_updates_to_begin ≤ g.n_update_calls →
      (g.n_update_calls - c.n_updates_to_begin) % c.n_check_interval ≠ 0 →
      StoppingCriterion.check (some c) g = some false) ∧
    (c.n_updates_to_begin ≤ g.n_update_calls →
      (g.n_update_calls - c.n_updates_to_begin) % c.n_check_interval = 0 →
      (StoppingCriterion.check (some c) g = some true ↔
        max_weighted_sigma g < c.threshold)) := by
  unfold StoppingCriterion.check
  dsimp only
  refine ⟨fun h => ?_, fun h1 h2 => ?_, fun h1 h2 => ?_⟩
  · rw [if_pos h]
  · rw [if_neg (by omega), if_pos h2]
  · rw [if_neg (by omega), if_neg (by simp [h2]), if_pos hm]
    unfold check_max_uncertainty
    by_cases hlt : max_weighted_sigma g < c.threshold
    · simp [hlt]
    · simp [hlt]

/-- Witness for C2: warm-up 3, interval 2, threshold 0.08, at update count 5
with a constant posterior std 0.05 and no weighting function, `check()`
returns true. -/
theorem C2_witness :
    StoppingCriterion.check
      (some ⟨"max_uncertainty", 3, 2, 2/25⟩)
      ⟨5, 1, fun _ => 1/20, none⟩ = some true := by
  have h := (C2_stopping_criterion_gates_and_threshold
    ⟨"max_uncertainty", 3, 2, 2/25⟩ ⟨5, 1, fun _ => 1/20, none⟩ rfl).2.2
    (by norm_num) (by norm_num)
  refine h.mpr ?_
  unfold max_weighted_sigma torch_linspace tensorMax
  norm_num [List.range_succ, gridPt]

/-- Claim C4: when the configured method is not `max_uncertainty` and both the
warm-up and interval gates pass, `check()` falls off the dispatch and returns
Python `None` (modelled as `none`), not the boolean `False`. -/
theorem C4_unknown_method_returns_none
    (c : StoppingCriterionConfig) (g : GuideState)
    (hm : c.method ≠ "max_uncertainty")
    (h1 : c.n_updates_to_begin ≤ g.n_update_calls)
    (h2 : (g.n_update_calls - c.n_updates_to_begin) % c.n_check_interval = 0) :
    StoppingCriterion.check (some c) g = none := by
  unfold StoppingCriterion.check
  dsimp only
  rw [if_neg (by omega), if_neg (by simp [h2]), if_neg hm]

/-- Witness for C4: a concrete config with method `other` whose gates pass. -/
theorem C4_witness :
    StoppingCriterion.check (some ⟨"other", 0, 1, 0⟩)
      ⟨0, 0, fun _ => 0, none⟩ = none := by
  exact C4_unknown_method_returns_none ⟨"other", 0, 1, 0⟩
    ⟨0, 0, fun _ => 0, none⟩ (by decide) (by norm_num) (by norm_num)

/-- Claim C10: a guide built with `stopping_criterion_configs = None` has a
stopping criterion whose `check()` always returns false, whatever the counters
and model state. -/
theorem C10_none_configs_never_stops (g : GuideState) :
    StoppingCriterion.check none g = some false := rfl

/-- The configuration read by `XANESExperimentGuide.update` (guide.py lines
357-364): the optional trigger count `n_updates_create_acqf_weight_func`, and
whether the configured acquisition function class has a `set_weight_func`
attribute (the `hasattr` probe in `build_acqf_weight_function`, line 376). -/
structure XANESUpdateConfig where
  n_updates_create_acqf_weight_func : Option ℕ
  has_set_weight_fn : Bool

/-- The guide state mutated by `XANESExperimentGuide.update`: the update-call
counter (incremented by `GPExperimentGuide.update`, line 250) and the
`acqf_weight_func` slot (initialized to `None` in `__init__`, line 337). -/
structure XANESGuideState where
  n_update_calls : ℕ
  acqf_weight_fn : Option (ℝ → ℝ)

/-- One call of `XANESExperimentGuide.update` (guide.py lines 357-364):
`super().update` increments `n_update_calls`; then, if
`n_updates_create_acqf_weight_func` is not `None` and the counter equals it,
`build_acqf_weight_function` runs — it stores the function it constructs when
the acquisition function has `set_weight_func`, and stores `None` otherwise
(lines 376-379). `builtAt k` stands for the weight function that
`build_acqf_weight_function` would construct from the model state after the
`k`-th update (model conditioning itself is external GP code). -/
def xanes_update (cfg : XANESUpdateConfig) (builtAt : ℕ → ℝ → ℝ)
    (g : XANESGuideState) : XANESGuideState :=
  let g1 : XANESGuideState := { g with n_update_calls := g.n_update_calls + 1 }
  match cfg.n_updates_create_acqf_weight_func with
  | none => g1
  | some N =>
    if g1.n_update_calls = N then
      if cfg.has_set_weight_fn then
        { g1 with acqf_weight_fn := some (builtAt g1.n_update_calls) }
      else
        { g1 with acqf_weight_fn := none }
    else g1

/-- The guide state right after `build()`: counters reset to zero
(`build_counters`, guide.py lines 100-102) and no weighting function. -/
def xanes_after_build : XANESGuideState := ⟨0, none⟩

/-- The guide state after `k` calls of `XANESExperimentGuide.update` following
`build()`. -/
def xanes_after_updates (cfg : XANESUpdateConfig) (builtAt : ℕ → ℝ → ℝ) :
    ℕ → XANESGuideState
  | 0 => xanes_after_build
  | k + 1 => xanes_update cfg builtAt (xanes_after_updates cfg builtAt k)

lemma xanes_update_counter (cfg : XANESUpdateConfig) (builtAt : ℕ → ℝ → ℝ)
    (g : XANESGuideState) :
    (xanes_update cfg builtAt g).n_update_calls = g.n_update_calls + 1 := by
  unfold xanes_update
  cases cfg.n_updates_create_acqf_weight_func with
  | none => rfl
  | some N =>
    dsimp only
    split
    · split <;> rfl
    · rfl

lemma xanes_after_updates_counter (cfg : XANESUpdateConfig)
    (builtAt : ℕ → ℝ → ℝ) (k : ℕ) :
    (xanes_after_updates cfg builtAt k).n_update_calls = k := by
  induction k with
  | zero => rfl
  | succ k ih =>
    unfold xanes_after_updates
    rw [xanes_update_counter, ih]

/-- Claim C3 (counterexample): with `n_updates_create_acqf_weight_func = 1`
but an acquisition function class without the `set_weight_func` hook, the
weighting function is still `None` after update call #1, contradicting the
claim that it is non-None after update call #N for every such guide. -/
theorem C3_counterexample :
    (xanes_after_updates ⟨some 1, false⟩ (fun _ _ => 0) 1).acqf_weight_fn
      = none := rfl

/-- Claim C3 (amended): for every guide configured with
`n_updates_create_acqf_weight_func = N` (N ≥ 1) *whose acquisition function
supports the `set_weight_func` hook*, the weighting function is `None` after
update calls 1..N-1, is non-None after update call #N, and every later update
leaves the function built at call #N in place (no rebuild or replacement). -/
theorem C3_weight_function_triggers_once (cfg : XANESUpdateConfig)
    (builtAt : ℕ → ℝ → ℝ) (N : ℕ)
    (hN : cfg.n_updates_create_acqf_weight_func = some N)
    (hhook : cfg.has_set_weight_fn = true) (hN1 : 1 ≤ N) :
    (∀ k < N, (xanes_after_updates cfg builtAt k).acqf_weight_fn = none) ∧
    (∀ k, N ≤ k →
      (xanes_after_updates cfg builtAt k).acqf_weight_fn = some (builtAt N)) := by
  have hstep : ∀ k, (xanes_after_updates cfg builtAt (k + 1)).acqf_weight_fn =
      if k + 1 = N then some (builtAt N)
      else (xanes_after_updates cfg builtAt k).acqf_weight_fn := by
    intro k
    show (xanes_update cfg builtAt (xanes_after_updates cfg builtAt k)).acqf_weight_fn = _
    unfold xanes_update
    rw [hN]
    dsimp only
    rw [xanes_after_updates_counter]
    by_cases hk : k + 1 = N
    · subst hk
      simp [hhook]
    · simp [hk]
  constructor
  · intro k hk
    induction k with
    | zero => rfl
    | succ j ih =>
      rw [hstep j, if_neg (by omega), ih (by omega)]
  · intro k hk
    induction k with
    | zero => omega
    | succ j ih =>
      rw [hstep j]
      by_cases hj : j + 1 = N
      · rw [if_pos hj]
      · rw [if_neg hj]
        exact ih (by omega)

/-- Witness for C3: with trigger count 2 and the hook present, the weighting
function is `None` after 1 update and equals the function built at call #2
after 2 and after 3 updates. -/
theorem C3_witness :
    (xanes_after_updates ⟨some 2, true⟩ (fun _ _ => (0:ℝ)) 1).acqf_weight_fn = none ∧
    (xanes_after_updates ⟨some 2, true⟩ (fun _ _ => (0:ℝ)) 2).acqf_weight_fn
      = some (fun _ : ℝ => (0:ℝ)) ∧
    (xanes_after_updates ⟨some 2, true⟩ (fun _ _ => (0:ℝ)) 3).acqf_weight_fn
      = some (fun _ : ℝ => (0:ℝ)) := by
  have h := C3_weight_function_triggers_once ⟨some 2, true⟩ (fun _ _ => (0:ℝ)) 2
    rfl rfl (by norm_num)
  exact ⟨h.1 1 (by norm_num), h.2 2 (by norm_num), h.2 3 (by norm_num)⟩

/-- Embeds the assertion at the top of
`GPExperimentGuide.build_acquisition_function` (guide.py lines 117-120):
when the configured acquisition function class is a subclass of
`botorch.acquisition.AnalyticAcquisitionFunction`, `num_candidates` must be 1
or the `assert` raises. `Except.error` stands for the `AssertionError`. -/
def build_acquisition_function_guard (is_analytic : Bool)
    (num_candidates : ℕ) : Except String Unit :=
  if is_analytic ∧ num_candidates ≠ 1 then
    Except.error "Since an analytical acquisition function is used, num_candidates must be 1."
  else Except.ok ()

/-- Claim C5: with an analytic acquisition function class, building the
acquisition function fails the assertion exactly when `num_candidates` is not
1, and passes when it is 1. -/
theorem C5_analytic_requires_single_candidate (num_candidates : ℕ) :
    build_acquisition_function_guard true num_candidates = Except.ok () ↔
      num_candidates = 1 := by
  unfold build_acquisition_function_guard
  by_cases h : num_candidates = 1
  · simp [h]
  · simp [h]

/-- The fitted `Normalize` input-transform bounds used by the scale helpers:
`input_transform.bounds[0]` (lower) and `input_transform.bounds[1]` (upper),
one entry per input dimension. -/
structure NormalizerBounds where
  lower : List ℝ
  upper : List ℝ

/-- Embeds `GPExperimentGuide.scale_by_normalizer_bounds` (guide.py lines
155-170), scalar branch: divide by the span
`bounds[1][dim] - bounds[0][dim]`. -/
noncomputable def scale_by_normalizer_bounds (b : NormalizerBounds) (x : ℝ)
    (dim : ℕ) : ℝ :=
  x / (b.upper.getD dim 0 - b.lower.getD dim 0)

/-- Embeds `GPExperimentGuide.unscale_by_normalizer_bounds` (guide.py lines
172-187), scalar branch: multiply by the span
`bounds[1][dim] - bounds[0][dim]`. -/
noncomputable def unscale_by_normalizer_bounds (b : NormalizerBounds) (x : ℝ)
    (dim : ℕ) : ℝ :=
  x * (b.upper.getD dim 0 - b.lower.getD dim 0)

/-- Claim C9: when the fitted bounds have positive span along dimension `dim`,
unscaling after scaling is the identity. -/
theorem C9_scale_unscale_roundtrip (b : NormalizerBounds) (x : ℝ) (dim : ℕ)
    (hspan : 0 < b.upper.getD dim 0 - b.lower.getD dim 0) :
    unscale_by_normalizer_bounds b (scale_by_normalizer_bounds b x dim) dim
      = x := by
  unfold scale_by_normalizer_bounds unscale_by_normalizer_bounds
  exact div_mul_cancel₀ x (ne_of_gt hspan)

/-- Witness for C9: bounds `[0]`...`[2]`, input `5`. -/
theorem C9_witness :
    unscale_by_normalizer_bounds ⟨[0], [2]⟩
      (scale_by_normalizer_bounds ⟨[0], [2]⟩ 5 0) 0 = 5 := by
  exact C9_scale_unscale_roundtrip ⟨[0], [2]⟩ 5 0 (by norm_num)

/-- The parameters fitted by the coordinate transform in train mode: the
input bounds of `Normalize` and the outcome mean/std of `Standardize`. -/
structure FittedTransform where
  xmin : ℝ
  xmax : ℝ
  ymean : ℝ
  ystd : ℝ

/-- Mean of a list of observations. -/
noncomputable def listMean (ys : List ℝ) : ℝ := ys.sum / (ys.length : ℝ)

/-- Sample standard deviation (Bessel-corrected) of a list of observations. -/
noncomputable def listStd (ys : List ℝ) : ℝ :=
  Real.sqrt ((ys.map (fun v => (v - listMean ys) ^ 2)).sum / ((ys.length : ℝ) - 1))

/-- Modelled from the spec: fitting the coordinate transform in train mode
(botorch `Normalize`/`Standardize`, library code not under `src/`)
"computes per-dimension input bounds and per-output mean/std from training
data" (spec 4.1). -/
noncomputable def fit_transform (xs ys : List ℝ) : FittedTransform :=
  ⟨xs.foldr min xs.headI, xs.foldr max xs.headI, listMean ys, listStd ys⟩

/-- Embeds `GPExperimentGuide.transform_data` (guide.py lines 189-212) for
1-D `x` in train mode: `x` is promoted to a column (`x[:, None]`), normalized
by the fitted bounds, and squeezed back (`x[:, 0]`); `y` is standardized by
the fitted mean/std. -/
noncomputable def transform_data (t : FittedTransform) (xs ys : List ℝ) :
    List ℝ × List ℝ :=
  let xcols := xs.map (fun v => [v])
  let xnorm := xcols.map (fun col => col.map (fun v => (v - t.xmin) / (t.xmax - t.xmin)))
  (xnorm.map (fun col => col.headI),
   ys.map (fun v => (v - t.ymean) / t.ystd))

/-- Embeds `GPExperimentGuide.untransform_data` (guide.py lines 214-221):
`Normalize.untransform` and `Standardize.untransform` with the fitted
parameters. -/
noncomputable def untransform_data (t : FittedTransform) (xs ys : List ℝ) :
    List ℝ × List ℝ :=
  (xs.map (fun v => v * (t.xmax - t.xmin) + t.xmin),
   ys.map (fun v => v * t.ystd + t.ymean))

lemma list_map_id_of_eq {l : List ℝ} {f : ℝ → ℝ} (h : ∀ v, f v = v) :
    l.map f = l := by
  induction l with
  | nil => rfl
  | cons a t ih => simp [List.map_cons, h a, ih]

/-- Claim C8: whenever the fitted input span and outcome std are nonzero,
applying the coordinate transform in train mode (fit-and-apply, with the
1-D promotion to 2-D and squeeze) and then untransforming reconstructs the
training tensors exactly (real arithmetic stands in for "within floating
tolerance"). -/
theorem C8_transform_roundtrip (xs ys : List ℝ)
    (hspan : (fit_transform xs ys).xmax - (fit_transform xs ys).xmin ≠ 0)
    (hstd : (fit_transform xs ys).ystd ≠ 0) :
    untransform_data (fit_transform xs ys)
      (transform_data (fit_transform xs ys) xs ys).1
      (transform_data (fit_transform xs ys) xs ys).2 = (xs, ys) := by
  set t := fit_transform xs ys with ht
  unfold transform_data untransform_data
  dsimp only
  refine Prod.ext ?_ ?_
  · dsimp only
    rw [List.map_map, List.map_map, List.map_map]
    refine list_map_id_of_eq fun v => ?_
    simp only [Function.comp_apply, List.map_cons, List.map_nil, List.headI]
    field_simp
  · dsimp only
    rw [List.map_map]
    refine list_map_id_of_eq fun v => ?_
    simp only [Function.comp_apply]
    field_simp

/-- Witness for C8: training data `x = [0, 2]`, `y = [0, 2]` (span 2, sample
std √2) round-trips exactly. -/
theorem C8_witness :
    untransform_data (fit_transform [0, 2] [0, 2])
      (transform_data (fit_transform [0, 2] [0, 2]) [0, 2] [0, 2]).1
      (transform_data (fit_transform [0, 2] [0, 2]) [0, 2] [0, 2]).2
      = ([0, 2], [0, 2]) := by
  have hspan : (fit_transform [0, 2] [0, 2]).xmax
      - (fit_transform [0, 2] [0, 2]).xmin ≠ 0 := by
    show ([0, 2] : List ℝ).foldr max ([0, 2] : List ℝ).headI
      - ([0, 2] : List ℝ).foldr min ([0, 2] : List ℝ).headI ≠ 0
    norm_num [List.foldr]
  have hstd : (fit_transform [0, 2] [0, 2]).ystd ≠ 0 := by
    show listStd [0, 2] ≠ 0
    have hval : ((([0, 2] : List ℝ).map
        (fun v => (v - listMean [0, 2]) ^ 2)).sum
        / ((([0, 2] : List ℝ).length : ℝ) - 1)) = 2 := by
      norm_num [listMean]
    unfold listStd
    rw [hval, Real.sqrt_ne_zero']
    norm_num
  exact C8_transform_roundtrip [0, 2] [0, 2] hspan hstd

/-- Embeds the closure `sparseness_function` of
`XANESExperimentGuide.build_feature_projection_function` (guide.py lines
425-431): the sum of two opposite-direction sigmoids, rescaled onto
`[lower_bound, 1]`. -/
noncomputable def sparseness_function (lb peak_loc peak_width x : ℝ) : ℝ :=
  let s := sigmoid x (1 / peak_width) (peak_loc - peak_width * 5) +
           sigmoid x (-(1 / peak_width)) (peak_loc + peak_width * 50)
  (s - 1) * (1 - lb) + lb

/-- Entry `i` of `np.cumsum` of the values `s 0, s 1, ...`. -/
noncomputable def cumsumAt (s : ℕ → ℝ) (i : ℕ) : ℝ :=
  ∑ j in Finset.range (i + 1), s j

/-- Entry `i` of the normalized cumulative mapping table (guide.py lines
435-438): `cdf = np.cumsum(sparseness); cdf = cdf - cdf[0]; cdf = cdf / cdf[-1]`,
with the sparseness evaluated on the dense grid `np.linspace(0, 1, n)`. -/
noncomputable def cdfAt (lb peak_loc peak_width : ℝ) (n i : ℕ) : ℝ :=
  (cumsumAt (fun j => sparseness_function lb peak_loc peak_width (gridPt n j)) i
    - cumsumAt (fun j => sparseness_function lb peak_loc peak_width (gridPt n j)) 0)
  / (cumsumAt (fun j => sparseness_function lb peak_loc peak_width (gridPt n j)) (n - 1)
    - cumsumAt (fun j => sparseness_function lb peak_loc peak_width (gridPt n j)) 0)

/-- Embeds `np.interp(t, x_dense, fp)` for the uniform grid
`x_dense = np.linspace(0, 1, n)`: the end values outside the grid, linear
interpolation between consecutive grid values inside. -/
noncomputable def np_interp_uniform (n : ℕ) (fp : ℕ → ℝ) (t : ℝ) : ℝ :=
  if t ≤ 0 then fp 0
  else if 1 ≤ t then fp (n - 1)
  else
    fp ⌊t * ((n : ℝ) - 1)⌋₊ + (t * ((n : ℝ) - 1) - ⌊t * ((n : ℝ) - 1)⌋₊)
      * (fp (⌊t * ((n : ℝ) - 1)⌋₊ + 1) - fp ⌊t * ((n : ℝ) - 1)⌋₊)

/-- Embeds `XANESExperimentGuide.build_feature_projection_function` (guide.py
lines 410-447). The cubic-spline interpolant, its central-difference gradient
and the `scipy.signal.find_peaks` call (lines 416-423) are external scipy
algorithms, abstracted as `findPeak`, which returns the normalized location and
width of the tallest gradient peak, or `none` when no peak satisfies the
constraints (a case the source leaves undefined; the spec recommends a
descriptive edge-not-detected error). The guard on fewer than 4 initial points
(lines 411-412) raises `ValueError`, modelled as `Except.error`; the resulting
`projection_func` maps a point by `np.interp` against the cumulative table on
the dense grid of `len(x_train) * 10` points. -/
noncomputable def build_feature_projection_function
    (findPeak : List ℝ → List ℝ → Option (ℝ × ℝ))
    (lb : ℝ) (x_train y_train : List ℝ) : Except String (ℝ → ℝ) :=
  if x_train.length < 4 then
    Except.error "To build a proper projection function, initial data should have at least 4 points."
  else
    match findPeak x_train y_train with
    | none => Except.error "edge not detected"
    | some (peak_loc, peak_width) =>
      Except.ok (fun t => np_interp_uniform (x_train.length * 10)
        (cdfAt lb peak_loc peak_width (x_train.length * 10)) t)

/-- Claim C6: the build fails with the 4-point `ValueError` exactly when the
initial training set has fewer than 4 points; with at least 4 points that
error is never raised. -/
theorem C6_projection_requires_four_points
    (findPeak : List ℝ → List ℝ → Option (ℝ × ℝ)) (lb : ℝ)
    (x_train y_train : List ℝ) :
    build_feature_projection_function findPeak lb x_train y_train
        = Except.error "To build a proper projection function, initial data should have at least 4 points."
      ↔ x_train.length < 4 := by
  unfold build_feature_projection_function
  by_cases h : x_train.length < 4
  · simp [h]
  · rw [if_neg h]
    constructor
    · intro hc
      exfalso
      cases hfp : findPeak x_train y_train with
      | none =>
        rw [hfp] at hc
        have hmsg := Except.error.inj hc
        exact absurd hmsg (by decide)
      | some p =>
        obtain ⟨pl, pw⟩ := p
        rw [hfp] at hc
        exact Except.noConfusion hc
    · intro hc
      exact absurd hc h

lemma sparseness_pos (lb peak_loc peak_width x : ℝ) (hw : 0 < peak_width)
    (h0 : 0 ≤ lb) (h1 : lb ≤ 1) :
    0 < sparseness_function lb peak_loc peak_width x := by
  unfold sparseness_function sigmoid
  set A := Real.exp (-(1 / peak_width * (x - (peak_loc - peak_width * 5)))) with hA
  set B := Real.exp (-(-(1 / peak_width) * (x - (peak_loc + peak_width * 50)))) with hB
  have hApos : 0 < A := Real.exp_pos _
  have hBpos : 0 < B := Real.exp_pos _
  have hAB : A * B = Real.exp (-55) := by
    rw [hA, hB, ← Real.exp_add]
    congr 1
    field_simp
    ring
  have hABlt : A * B < 1 := by
    rw [hAB]
    calc Real.exp (-55) < Real.exp 0 := Real.exp_lt_exp.mpr (by norm_num)
    _ = 1 := Real.exp_zero
  have hsum : 0 < 1 / (1 + A) + 1 / (1 + B) - 1 := by
    have heq : 1 / (1 + A) + 1 / (1 + B) - 1
        = (1 - A * B) / ((1 + A) * (1 + B)) := by
      field_simp
      ring
    rw [heq]
    apply div_pos (by linarith)
    positivity
  dsimp only
  rcases lt_or_eq_of_le h0 with hlt | heq
  · nlinarith [mul_nonneg hsum.le (sub_nonneg.mpr h1)]
  · rw [← heq]
    nlinarith

lemma cumsumAt_strictMono (s : ℕ → ℝ) (hs : ∀ j, 0 < s j) :
    StrictMono (cumsumAt s) := by
  apply strictMono_nat_of_lt_succ
  intro n
  unfold cumsumAt
  rw [Finset.sum_range_succ (n := n + 1)]
  linarith [hs (n + 1)]

lemma cdf_denom_pos (lb peak_loc peak_width : ℝ) (n : ℕ) (hn : 2 ≤ n)
    (hw : 0 < peak_width) (h0 : 0 ≤ lb) (h1 : lb ≤ 1) :
    0 < cumsumAt (fun j => sparseness_function lb peak_loc peak_width (gridPt n j)) (n - 1)
      - cumsumAt (fun j => sparseness_function lb peak_loc peak_width (gridPt n j)) 0 := by
  have hmono := cumsumAt_strictMono
    (fun j => sparseness_function lb peak_loc peak_width (gridPt n j))
    (fun j => sparseness_pos lb peak_loc peak_width (gridPt n j) hw h0 h1)
  have h := hmono (show 0 < n - 1 by omega)
  linarith

lemma cdfAt_monotone (lb peak_loc peak_width : ℝ) (n : ℕ) (hn : 2 ≤ n)
    (hw : 0 < peak_width) (h0 : 0 ≤ lb) (h1 : lb ≤ 1) :
    Monotone (cdfAt lb peak_loc peak_width n) := by
  intro i j hij
  unfold cdfAt
  have hD := cdf_denom_pos lb peak_loc peak_width n hn hw h0 h1
  have hmono := cumsumAt_strictMono
    (fun j => sparseness_function lb peak_loc peak_width (gridPt n j))
    (fun j => sparseness_pos lb peak_loc peak_width (gridPt n j) hw h0 h1)
  have hnum := hmono.monotone hij
  exact (div_le_div_right hD).mpr (by linarith)

lemma cdfAt_zero (lb peak_loc peak_width : ℝ) (n : ℕ) :
    cdfAt lb peak_loc peak_width n 0 = 0 := by
  unfold cdfAt
  rw [sub_self, zero_div]

lemma cdfAt_last (lb peak_loc peak_width : ℝ) (n : ℕ) (hn : 2 ≤ n)
    (hw : 0 < peak_width) (h0 : 0 ≤ lb) (h1 : lb ≤ 1) :
    cdfAt lb peak_loc peak_width n (n - 1) = 1 := by
  unfold cdfAt
  exact div_self (ne_of_gt (cdf_denom_pos lb peak_loc peak_width n hn hw h0 h1))

lemma np_interp_uniform_interior_bounds (n : ℕ) (fp : ℕ → ℝ) (hfp : Monotone fp)
    (hn1 : (0:ℝ) ≤ (n : ℝ) - 1) (t : ℝ) (ht0 : ¬ t ≤ 0) (ht1 : ¬ 1 ≤ t) :
    fp ⌊t * ((n : ℝ) - 1)⌋₊ ≤ np_interp_uniform n fp t ∧
      np_interp_uniform n fp t ≤ fp (⌊t * ((n : ℝ) - 1)⌋₊ + 1) := by
  unfold np_interp_uniform
  rw [if_neg ht0, if_neg ht1]
  have htpos : 0 < t := not_le.mp ht0
  have hu0 : 0 ≤ t * ((n : ℝ) - 1) := mul_nonneg htpos.le hn1
  have hk1 : (⌊t * ((n : ℝ) - 1)⌋₊ : ℝ) ≤ t * ((n : ℝ) - 1) := Nat.floor_le hu0
  have hk2 : t * ((n : ℝ) - 1) < ⌊t * ((n : ℝ) - 1)⌋₊ + 1 :=
    Nat.lt_floor_add_one _
  have hd : 0 ≤ fp (⌊t * ((n : ℝ) - 1)⌋₊ + 1) - fp ⌊t * ((n : ℝ) - 1)⌋₊ :=
    sub_nonneg.mpr (hfp (Nat.le_succ _))
  constructor
  · nlinarith
  · nlinarith

lemma np_interp_uniform_monotone (n : ℕ) (fp : ℕ → ℝ) (hfp : Monotone fp)
    (hn : 2 ≤ n) (t1 t2 : ℝ) (h12 : t1 ≤ t2) :
    np_interp_uniform n fp t1 ≤ np_interp_uniform n fp t2 := by
  have hn1 : (0:ℝ) ≤ (n : ℝ) - 1 := by
    have h2 : (2:ℝ) ≤ (n : ℝ) := by exact_mod_cast hn
    linarith
  by_cases h1a : t1 ≤ 0
  · have hL : np_interp_uniform n fp t1 = fp 0 := by
      unfold np_interp_uniform
      rw [if_pos h1a]
    rw [hL]
    by_cases h2a : t2 ≤ 0
    · unfold np_interp_uniform
      rw [if_pos h2a]
    · by_cases h2b : 1 ≤ t2
      · unfold np_interp_uniform
        rw [if_neg h2a, if_pos h2b]
        exact hfp (Nat.zero_le _)
      · have hb := (np_interp_uniform_interior_bounds n fp hfp hn1 t2 h2a h2b).1
        exact le_trans (hfp (Nat.zero_le _)) hb
  · by_cases h1b : 1 ≤ t1
    · have h2b : 1 ≤ t2 := le_trans h1b h12
      have h2a : ¬ t2 ≤ 0 := by
        have := not_le.mp h1a
        intro hc
        linarith
      unfold np_interp_uniform
      rw [if_neg h1a, if_pos h1b, if_neg h2a, if_pos h2b]
    · have h1pos : 0 < t1 := not_le.mp h1a
      have h1lt : t1 < 1 := not_le.mp h1b
      have h2a : ¬ t2 ≤ 0 := by
        intro hc
        linarith
      by_cases h2b : 1 ≤ t2
      · have hb := (np_interp_uniform_interior_bounds n fp hfp hn1 t1 h1a h1b).2
        have hu0 : 0 ≤ t1 * ((n : ℝ) - 1) := mul_nonneg h1pos.le hn1
        have hkn : ⌊t1 * ((n : ℝ) - 1)⌋₊ + 1 ≤ n - 1 := by
          have hcast : ((n - 1 : ℕ) : ℝ) = (n : ℝ) - 1 := by
            rw [Nat.cast_sub (by omega)]
            norm_num
          have hn1p : (0:ℝ) < (n : ℝ) - 1 := by
            have h2 : (2:ℝ) ≤ (n : ℝ) := by exact_mod_cast hn
            linarith
          have hub : t1 * ((n : ℝ) - 1) < ((n - 1 : ℕ) : ℝ) := by
            rw [hcast]
            nlinarith
          have := (Nat.floor_lt hu0).mpr hub
          omega
        have hR : np_interp_uniform n fp t2 = fp (n - 1) := by
          unfold np_interp_uniform
          rw [if_neg h2a, if_pos h2b]
        rw [hR]
        exact le_trans hb (hfp hkn)
      · have hb1 := (np_interp_uniform_interior_bounds n fp hfp hn1 t1 h1a h1b).2
        have hb2 := (np_interp_uniform_interior_bounds n fp hfp hn1 t2 h2a h2b).1
        have hu12 : t1 * ((n : ℝ) - 1) ≤ t2 * ((n : ℝ) - 1) :=
          mul_le_mul_of_nonneg_right h12 hn1
        have hkk : ⌊t1 * ((n : ℝ) - 1)⌋₊ ≤ ⌊t2 * ((n : ℝ) - 1)⌋₊ :=
          Nat.floor_le_floor hu12
        rcases lt_or_eq_of_le hkk with hlt | heq
        · exact le_trans hb1 (le_trans (hfp (by omega)) hb2)
        · unfold np_interp_uniform
          rw [if_neg h1a, if_neg h1b, if_neg h2a, if_neg h2b, ← heq]
          have hd : 0 ≤ fp (⌊t1 * ((n : ℝ) - 1)⌋₊ + 1) - fp ⌊t1 * ((n : ℝ) - 1)⌋₊ :=
            sub_nonneg.mpr (hfp (Nat.le_succ _))
          nlinarith

/-- Claim C7: for every initial training set of at least 4 points on which the
gradient peak finding succeeds (with a positive normalized peak width, as
`find_peaks` with a width constraint guarantees) and a sparseness lower bound
in `[0, 1]`, the produced projection function is monotone non-decreasing on
`[0, 1]` and maps 0 to 0 and 1 to 1. -/
theorem C7_projection_monotone_and_endpoints
    (findPeak : List ℝ → List ℝ → Option (ℝ × ℝ))
    (lb peak_loc peak_width : ℝ) (x_train y_train : List ℝ) (proj : ℝ → ℝ)
    (hlen : 4 ≤ x_train.length)
    (hpk : findPeak x_train y_train = some (peak_loc, peak_width))
    (hw : 0 < peak_width) (hlb0 : 0 ≤ lb) (hlb1 : lb ≤ 1)
    (hbuild : build_feature_projection_function findPeak lb x_train y_train
      = Except.ok proj) :
    (∀ t1 t2, 0 ≤ t1 → t1 ≤ t2 → t2 ≤ 1 → proj t1 ≤ proj t2) ∧
      proj 0 = 0 ∧ proj 1 = 1 := by
  unfold build_feature_projection_function at hbuild
  rw [if_neg (by omega), hpk] at hbuild
  have hproj : proj = fun t => np_interp_uniform (x_train.length * 10)
      (cdfAt lb peak_loc peak_width (x_train.length * 10)) t :=
    (Except.ok.inj hbuild).symm
  subst hproj
  have hn2 : 2 ≤ x_train.length * 10 := by omega
  have hmono := cdfAt_monotone lb peak_loc peak_width (x_train.length * 10)
    hn2 hw hlb0 hlb1
  refine ⟨?_, ?_, ?_⟩
  · intro t1 t2 _ h12 _
    exact np_interp_uniform_monotone (x_train.length * 10)
      (cdfAt lb peak_loc peak_width (x_train.length * 10)) hmono hn2 t1 t2 h12
  · show np_interp_uniform (x_train.length * 10)
      (cdfAt lb peak_loc peak_width (x_train.length * 10)) 0 = 0
    unfold np_interp_uniform
    rw [if_pos (le_refl (0:ℝ))]
    exact cdfAt_zero lb peak_loc peak_width (x_train.length * 10)
  · show np_interp_uniform (x_train.length * 10)
      (cdfAt lb peak_loc peak_width (x_train.length * 10)) 1 = 1
    unfold np_interp_uniform
    rw [if_neg (by norm_num), if_pos (le_refl (1:ℝ))]
    exact cdfAt_last lb peak_loc peak_width (x_train.length * 10) hn2 hw hlb0 hlb1

/-- Witness for C7: four training points, a peak at normalized location 1/2
with width 1/10, sparseness lower bound 1/10; the build succeeds and the
projection fixes the endpoints and is monotone between 1/4 and 1/2. -/
theorem C7_witness :
    build_feature_projection_function (fun _ _ => some (1/2, 1/10)) (1/10)
      [0, 1, 2, 3] [0, 0, 1, 1]
      = Except.ok (fun t => np_interp_uniform 40 (cdfAt (1/10) (1/2) (1/10) 40) t) ∧
    np_interp_uniform 40 (cdfAt (1/10) (1/2) (1/10) 40) 0 = 0 ∧
    np_interp_uniform 40 (cdfAt (1/10) (1/2) (1/10) 40) 1 = 1 ∧
    np_interp_uniform 40 (cdfAt (1/10) (1/2) (1/10) 40) (1/4)
      ≤ np_interp_uniform 40 (cdfAt (1/10) (1/2) (1/10) 40) (1/2) := by
  have hbuild : build_feature_projection_function (fun _ _ => some (1/2, 1/10)) (1/10)
      [0, 1, 2, 3] [0, 0, 1, 1]
      = Except.ok (fun t => np_interp_uniform 40 (cdfAt (1/10) (1/2) (1/10) 40) t) := rfl
  have h := C7_projection_monotone_and_endpoints (fun _ _ => some (1/2, 1/10))
    (1/10) (1/2) (1/10) [0, 1, 2, 3] [0, 0, 1, 1]
    (fun t => np_interp_uniform 40 (cdfAt (1/10) (1/2) (1/10) 40) t)
    (by norm_num) rfl (by norm_num) (by norm_num) (by norm_num) hbuild
  exact ⟨hbuild, h.2.1, h.2.2,
    h.1 (1/4) (1/2) (by norm_num) (by norm_num) (by norm_num)⟩

end Autobl
